import Mathlib

/-!
Verification of the PPO-Stein-Control-Variate policy optimizer
(`src/optimization/policy.py`) against its natural-language specification.

The development shallowly embeds the pieces of `Policy` that the claims
are about:

* the adaptive trust-region controller (`Policy.update`, lines 381-391)
  over exact rationals;
* the bounded policy-optimization epoch loop with its KL divergence guard
  (`Policy.update`, lines 375-379), parametric in the underlying numeric
  state;
* the phi sub-loop, metric emission and return value of `Policy.update`
  (lines 340-398);
* the surrogate-loss construction (`Policy._loss_train_op`, lines 258-274)
  and the closed-form KL divergence (`Policy._kl_entropy`, lines 206-215)
  over the reals;
* the network-size and configuration-dispatch logic of `Policy._policy_nn`
  and `Policy._loss_train_op`, including the `NotImplementedError` branches.

Definitions come first, then the theorems about them.
-/

namespace PPOStein

/-
Adaptive trust-region controller.  `Policy.__init__` sets `beta = 1.0`,
`eta = 50`, `lr_multiplier = 1.0`.  `Policy.update` (lines 381-391) adjusts
`beta` and `lr_multiplier` from the final observed KL value.  The Python
literal `1.5` is the exact rational `3/2`, so the controller is embedded
over `ℚ`.
-/

/-- Mutable trust-region state of a `Policy` instance: the KL-penalty
coefficient `beta` and the learning-rate multiplier `lr_multiplier`. -/
structure TrustState where
  beta : ℚ
  lr_multiplier : ℚ
  deriving DecidableEq, Repr

/-- Initial controller state from `Policy.__init__` (lines 45 and 54). -/
def initTrust : TrustState := { beta := 1, lr_multiplier := 1 }

/-- One trust-region adaptation step: the `if (ada_kl_penalty)` block of
`Policy.update` (lines 381-391), applied after the epoch loop with `kl` the
final observed KL value. -/
def adaptTrust (kl_targ : ℚ) (use_lr_adjust ada_kl_penalty : Bool) (kl : ℚ)
    (s : TrustState) : TrustState :=
  if ada_kl_penalty then
    if kl > kl_targ * 2 then
      let beta' := min 35 (3/2 * s.beta)
      let lr' :=
        if use_lr_adjust then
          if beta' > 30 ∧ s.lr_multiplier > 1/10 then
            s.lr_multiplier / (3/2)
          else s.lr_multiplier
        else s.lr_multiplier
      { beta := beta', lr_multiplier := lr' }
    else if kl < kl_targ / 2 then
      let beta' := max (1/35) (s.beta / (3/2))
      let lr' :=
        if use_lr_adjust then
          if beta' < 1/30 ∧ s.lr_multiplier < 10 then
            s.lr_multiplier * (3/2)
          else s.lr_multiplier
        else s.lr_multiplier
      { beta := beta', lr_multiplier := lr' }
    else s
  else s

/-- A call record for the controller: the final KL the epoch loop observed,
and the `use_lr_adjust` and `ada_kl_penalty` flags of that `update` call. -/
abbrev TrustCall := ℚ × Bool × Bool

/-- Trust-region state after a sequence of `update` calls, starting from the
constructed state. -/
def runUpdates (kl_targ : ℚ) (calls : List TrustCall) : TrustState :=
  calls.foldl (fun s c => adaptTrust kl_targ c.2.1 c.2.2 c.1 s) initTrust

/-- Invariant maintained by the controller: `beta` lies in `[1/35, 35]` and
`lr_multiplier` is an integer power of `3/2` with exponent in `[-6, 6]`. -/
def TrustInv (s : TrustState) : Prop :=
  1/35 ≤ s.beta ∧ s.beta ≤ 35 ∧
    ∃ k : ℤ, -6 ≤ k ∧ k ≤ 6 ∧ s.lr_multiplier = (3/2 : ℚ) ^ k

/-
Bounded policy-optimization epoch loop, `Policy.update` lines 361 and
375-379:

    loss, kl, entropy = 0, 0, 0
    for _ in progressbar(range(self.epochs), ...):
        self.sess.run(self.train_op, feed_dict)
        loss, kl, entropy = self.sess.run([self.loss, self.kl, self.entropy],
                                          feed_dict)
        if kl > self.kl_targ * 4:  # early stopping if D_KL diverges badly
            break

The numeric-substrate state (the TensorFlow variables) is abstracted as a
type `T`; `step` is one `sess.run(train_op)` and `ev` one
`sess.run([loss, kl, entropy])` evaluation on the fixed feed dictionary.
-/

/-- Runs up to `n` optimizer steps with the KL divergence guard; returns the
final numeric state, the last evaluated `(loss, kl, entropy)` (the initial
accumulator if no step ran), and the number of steps executed. -/
def runEpochs {T : Type} (kl_targ : ℚ) (step : T → T) (ev : T → ℚ × ℚ × ℚ) :
    ℕ → T → ℚ × ℚ × ℚ → T × (ℚ × ℚ × ℚ) × ℕ
  | 0, s, acc => (s, acc, 0)
  | n + 1, s, _acc =>
    let s' := step s
    let m := ev s'
    if m.2.1 > kl_targ * 4 then (s', m, 1)
    else
      let r := runEpochs kl_targ step ev n s' m
      (r.1, r.2.1, r.2.2 + 1)

/-
Whole-call structure of `Policy.update` (lines 340-398): snapshot the old
policy outputs, optionally train the phi network (`if self.c_ph == 1.`,
lines 363-371: `phi_epochs` runs of `phi_train_op`, each followed by a
`phi_loss` evaluation, the last of which is recorded as `Phi_loss`), run the
policy epoch loop, adapt the trust region, and emit metrics via
`record_dicts`.  The Python function body contains no `return` statement.
-/

/-- Per-call environment: the numeric-substrate operations one `update` call
drives (fixed by the graph and the batch in `feed_dict`) plus the two
boolean arguments.  `T` is the state of the policy-network variables, `P`
that of the phi-network variables.  `train_op` minimizes the policy loss
over `policy_nn_vars` only (lines 276-278), so a policy step reads the phi
state but rewrites only `T`; `phi_train_op` minimizes `phi_loss` over
`phi_nn_vars` only (lines 318-321), so a phi step reads the policy state
but rewrites only `P`. -/
structure UpdateCall (T P : Type) where
  policyStep : P → T → T
  phiStep : T → P → P
  evalTriple : P → T → ℚ × ℚ × ℚ
  evalPhiLoss : T → P → ℚ
  use_lr_adjust : Bool
  ada_kl_penalty : Bool

/-- Observable outcome of one `update` call: the mutated variable states,
the trust-region state, the metrics handed to the logger (in emission
order), and the returned value of the call. -/
structure UpdateResult (T P : Type) where
  policyState : T
  phiState : P
  trust : TrustState
  metrics : List (String × ℚ)
  ret : Option (ℚ × ℚ × ℚ)

/-- Embedding of `Policy.update` (lines 340-398).  The phi sub-loop runs
only under `c_ph == 1`; `Phi_loss` is recorded from the last in-loop
evaluation; the epoch loop starts from `loss, kl, entropy = 0, 0, 0`
(line 361); the final KL drives the trust-region adaptation; `record_dicts`
(lines 393-398) emits `PolicyLoss`, `PolicyEntropy`, `KL`, `Beta` and
`_lr_multiplier`; the body has no `return` statement, so the call returns
`None` (`ret := none`). -/
def update {T P : Type} (kl_targ : ℚ) (epochs phi_epochs : ℕ) (c_ph : ℚ)
    (c : UpdateCall T P) (t : T) (p : P) (s : TrustState) : UpdateResult T P :=
  let p' := if c_ph = 1 then (c.phiStep t)^[phi_epochs] p else p
  let phiMetrics :=
    if c_ph = 1 then [("Phi_loss", c.evalPhiLoss t p')] else []
  let r := runEpochs kl_targ (c.policyStep p') (c.evalTriple p') epochs t
    (0, 0, 0)
  let s' := adaptTrust kl_targ c.use_lr_adjust c.ada_kl_penalty r.2.1.2.1 s
  { policyState := r.1
    phiState := p'
    trust := s'
    metrics := phiMetrics ++
      [("PolicyLoss", r.2.1.1), ("PolicyEntropy", r.2.1.2.2),
       ("KL", r.2.1.2.1), ("Beta", s'.beta),
       ("_lr_multiplier", s'.lr_multiplier)]
    ret := none }

/-- A sequence of `update` calls threading the instance state of `Policy`
(policy variables, phi variables, trust-region state). -/
def runPolicyUpdates {T P : Type} (kl_targ : ℚ) (epochs phi_epochs : ℕ)
    (c_ph : ℚ) :
    List (UpdateCall T P) → T → P → TrustState → T × P × TrustState
  | [], t, p, s => (t, p, s)
  | c :: rest, t, p, s =>
    runPolicyUpdates kl_targ epochs phi_epochs c_ph rest
      (update kl_targ epochs phi_epochs c_ph c t p s).policyState
      (update kl_targ epochs phi_epochs c_ph c t p s).phiState
      (update kl_targ epochs phi_epochs c_ph c t p s).trust

/-- A probe call whose phi step would visibly mutate the phi state (here
`P = ℚ`, a phi step adds one) if it were ever run. -/
def probeCall : UpdateCall Unit ℚ where
  policyStep := fun _ t => t
  phiStep := fun _ p => p + 1
  evalTriple := fun _ _ => (0, 0, 0)
  evalPhiLoss := fun _ p => p
  use_lr_adjust := true
  ada_kl_penalty := true

/-
Network sizing and configuration dispatch.
-/

/-- Hidden-layer sizes from `Policy._policy_nn` (lines 115-129): the small
regime takes `hid1 = obs_dim`, `hid3 = act_dim`; the large regime takes
`hid1 = obs_dim * hid1_mult`, `hid3 = act_dim * 10`; both set
`hid2 = int(np.sqrt(hid1 * hid3))`, the floor square root; any other
`policy_size` raises `NotImplementedError`. -/
def policySizes (policy_size : String) (obs_dim act_dim hid1_mult : ℕ) :
    Except String (ℕ × ℕ × ℕ) :=
  if policy_size = "small" then
    Except.ok (obs_dim, Nat.sqrt (obs_dim * act_dim), act_dim)
  else if policy_size = "large" then
    Except.ok (obs_dim * hid1_mult,
      Nat.sqrt (obs_dim * hid1_mult * (act_dim * 10)), act_dim * 10)
  else Except.error "NotImplementedError"

/-- Number of trainable log-variance rows,
`logvar_speed = (10 * hid3_size) // 48` (line 160). -/
def logvarSpeed (hid3_size : ℕ) : ℕ := 10 * hid3_size / 48

/-- Configuration checking performed during construction: `_build_graph`
runs `_policy_nn` (which raises `NotImplementedError` on an unrecognized
`policy_size`, lines 115-129) and then `_loss_train_op` (which raises
`NotImplementedError` on an unrecognized `phi_obj` only inside the
`c_ph == 1` branch, lines 291-325; the `c_ph == 0` branch installs a no-op
and performs no `phi_obj` check). -/
def buildGraph (policy_size phi_obj : String) (obs_dim act_dim hid1_mult : ℕ)
    (c_ph : ℚ) : Except String (ℕ × ℕ × ℕ) :=
  match policySizes policy_size obs_dim act_dim hid1_mult with
  | Except.error e => Except.error e
  | Except.ok sizes =>
    if c_ph = 1 then
      if phi_obj = "FitQ" then Except.ok sizes
      else if phi_obj = "MinVar" then Except.ok sizes
      else Except.error "NotImplementedError"
    else Except.ok sizes

/-
Real-valued pieces: the log-variance head, the diagonal-Gaussian KL formula
and the surrogate loss.  Tensor rows are lists; a batch is a list of rows.
-/

noncomputable section

/-- Mean of a batch vector (`tf.reduce_mean` along the batch axis); the
empty batch yields `0 / 0 = 0`. -/
def listMean (xs : List ℝ) : ℝ := xs.sum / xs.length

/-- Mean of all entries of an `N × d` tensor (`tf.reduce_mean` with no axis
argument flattens). -/
def matMean (m : List (List ℝ)) : ℝ :=
  (m.map List.sum).sum / ((m.map List.length).sum : ℕ)

/-- The log-variance head of `_policy_nn` (lines 160-167): the
`(logvar_speed, act_dim)` variable rows are summed along axis 0 and offset
by the fixed `policy_logvar`; the observation does not enter this
computation. -/
def logVarsOutput (rows : List (List ℝ)) (policy_logvar : ℝ) (act_dim : ℕ) :
    List ℝ :=
  (List.range act_dim).map (fun j =>
    (rows.map (fun r => r.getD j 0)).sum + policy_logvar)

/-- One `tf.layers.dense` layer on a single input row:
`y_j = act ((Σ_i x_i * W_i_j) + b_j)`. -/
def dense (act : ℝ → ℝ) (w : List (List ℝ)) (b : List ℝ) (x : List ℝ) :
    List ℝ :=
  (List.range b.length).map (fun j =>
    act ((List.zipWith (fun xi wrow => xi * wrow.getD j 0) x w).sum +
      b.getD j 0))

/-- Trainable parameters of the policy network: three hidden layers, the
means head, and the log-variance rows. -/
structure PolicyNNParams where
  w1 : List (List ℝ)
  b1 : List ℝ
  w2 : List (List ℝ)
  b2 : List ℝ
  w3 : List (List ℝ)
  b3 : List ℝ
  wm : List (List ℝ)
  bm : List ℝ
  logvarRows : List (List ℝ)

/-- Forward pass of `_policy_nn` (lines 134-167) on one observation: three
tanh layers, a linear means head, and the observation-independent
log-variance head. -/
def policyForward (p : PolicyNNParams) (policy_logvar : ℝ) (act_dim : ℕ)
    (obs : List ℝ) : List ℝ × List ℝ :=
  let h1 := dense Real.tanh p.w1 p.b1 obs
  let h2 := dense Real.tanh p.w2 p.b2 h1
  let h3 := dense Real.tanh p.w3 p.b3 h2
  (dense id p.wm p.bm h3, logVarsOutput p.logvarRows policy_logvar act_dim)

/-- Concrete parameter instance used for instantiating theorems. -/
def probeParams : PolicyNNParams where
  w1 := [[1]]
  b1 := [0]
  w2 := [[1]]
  b2 := [0]
  w3 := [[1]]
  b3 := [0]
  wm := [[1, 1]]
  bm := [0, 0]
  logvarRows := [[1, 2]]

/-- KL divergence of `Policy._kl_entropy` (lines 206-215): with
`log_det_cov_old = Σ old_log_vars`, `log_det_cov_new = Σ log_vars` and
`tr_old_new = Σ exp(old_log_vars - log_vars)`,

    kl = 0.5 * reduce_mean(log_det_cov_new - log_det_cov_old + tr_old_new
           + Σ_axis1 (means - old_means)² / exp(log_vars) - act_dim).
-/
def klDivergence (act_dim : ℕ) (means : List (List ℝ)) (log_vars : List ℝ)
    (old_means : List (List ℝ)) (old_log_vars : List ℝ) : ℝ :=
  let log_det_cov_old := old_log_vars.sum
  let log_det_cov_new := log_vars.sum
  let tr_old_new :=
    (List.zipWith (fun o n => Real.exp (o - n)) old_log_vars log_vars).sum
  0.5 * listMean (List.zipWith (fun mrow omrow =>
      log_det_cov_new - log_det_cov_old + tr_old_new +
        (List.zipWith (fun d lv => d ^ 2 / Real.exp lv)
          (List.zipWith (fun a b => a - b) mrow omrow) log_vars).sum -
        (act_dim : ℝ)) means old_means)

/-- First summand of the surrogate loss (`_loss_train_op`, lines 258-260):
`loss1_log_vars = -reduce_mean(stop_gradient(log_vars_inner)
* exp(log_vars))`.  The detached inner tensor is `N × act_dim` and
`exp(log_vars)` broadcasts along the batch axis; the contraction is with
the exponentiated log-variance output. -/
def loss1_log_vars (log_vars_inner : List (List ℝ)) (log_vars : List ℝ) :
    ℝ :=
  - matMean (log_vars_inner.map (fun row =>
      List.zipWith (fun i lv => i * Real.exp lv) row log_vars))

/-- Second summand (lines 262-264):
`loss1_mean = -reduce_mean(stop_gradient(means_inner) * means)`. -/
def loss1_mean (means_inner means : List (List ℝ)) : ℝ :=
  - matMean (List.zipWith (fun irow mrow =>
      List.zipWith (fun i m => i * m) irow mrow) means_inner means)

/-- The surrogate term `loss1 = loss1_log_vars + loss1_mean` (line 266). -/
def loss1 (log_vars_inner : List (List ℝ)) (log_vars : List ℝ)
    (means_inner means : List (List ℝ)) : ℝ :=
  loss1_log_vars log_vars_inner log_vars + loss1_mean means_inner means

/-- Total policy loss (lines 268-274): `loss2 = reduce_mean(beta * kl)` is
`beta * kl` since `kl` is a scalar, and
`loss3 = eta * (max 0 (kl - 2 * kl_targ))²`. -/
def policyLoss (log_vars_inner : List (List ℝ)) (log_vars : List ℝ)
    (means_inner means : List (List ℝ)) (beta eta kl_targ kl : ℝ) : ℝ :=
  loss1 log_vars_inner log_vars means_inner means + beta * kl +
    eta * (max 0 (kl - 2 * kl_targ)) ^ 2

/-- The surrogate loss exactly as the specification words Step 3:
`loss1 = -mean(inner_log_var * log_var) - mean(inner_mean * mean)` — the
log-variance channel contracted with the log-variance output itself. -/
def loss1_claimed (log_vars_inner : List (List ℝ)) (log_vars : List ℝ)
    (means_inner means : List (List ℝ)) : ℝ :=
  - matMean (log_vars_inner.map (fun row =>
      List.zipWith (fun i lv => i * lv) row log_vars))
  - matMean (List.zipWith (fun irow mrow =>
      List.zipWith (fun i m => i * m) irow mrow) means_inner means)

/-- The surrogate loss as the amended claim words it: the log-variance
channel is contracted with the elementwise exponential `exp(log_var)`. -/
def loss1_amended (log_vars_inner : List (List ℝ)) (log_vars : List ℝ)
    (means_inner means : List (List ℝ)) : ℝ :=
  - matMean (log_vars_inner.map (fun row =>
      List.zipWith (fun i lv => i * Real.exp lv) row log_vars))
  - matMean (List.zipWith (fun irow mrow =>
      List.zipWith (fun i m => i * m) irow mrow) means_inner means)

end

/-
Theorems.  Helper lemmas first, then one theorem per claim, each with its
counterexample and witness where required.
-/

theorem trustInv_init : TrustInv initTrust :=
  ⟨by norm_num [initTrust], by norm_num [initTrust],
   0, by norm_num, by norm_num, by norm_num [initTrust]⟩

theorem zpow_three_halves_le_of_le {j k : ℤ} (h : j ≤ k) :
    (3/2 : ℚ) ^ j ≤ (3/2 : ℚ) ^ k :=
  zpow_le_zpow_right₀ (by norm_num) h

theorem trustInv_step (kl_targ kl : ℚ) (u a : Bool) (s : TrustState)
    (hs : TrustInv s) : TrustInv (adaptTrust kl_targ u a kl s) := by
  obtain ⟨hb1, hb2, k, hk1, hk2, hlr⟩ := hs
  unfold adaptTrust
  split
  · split
    · refine ⟨le_min (by norm_num) (by linarith), min_le_left _ _, ?_⟩
      dsimp only
      split
      · split
        · rename_i hguard
          refine ⟨k - 1, ?_, by omega, ?_⟩
          · rcases hguard with ⟨-, hlr10⟩
            by_contra hcon
            have hk6 : k ≤ -6 := by omega
            have hle : (3/2 : ℚ) ^ k ≤ (3/2 : ℚ) ^ (-6 : ℤ) :=
              zpow_three_halves_le_of_le hk6
            rw [hlr] at hlr10
            have h6 : ((3 : ℚ)/2) ^ (-6 : ℤ) = 64/729 := by
              rw [zpow_neg]; norm_num
            rw [h6] at hle
            linarith
          · rw [hlr, div_eq_mul_inv, ← zpow_sub_one₀ (by norm_num)]
        · exact ⟨k, hk1, hk2, hlr⟩
      · exact ⟨k, hk1, hk2, hlr⟩
    · split
      · refine ⟨le_max_left _ _, max_le (by norm_num) (by
          have hb : s.beta / (3/2) ≤ s.beta := by
            rw [div_le_iff₀ (by norm_num)]; nlinarith
          linarith), ?_⟩
        dsimp only
        split
        · split
          · rename_i hguard
            refine ⟨k + 1, by omega, ?_, ?_⟩
            · rcases hguard with ⟨-, hlr10⟩
              by_contra hcon
              have hk6 : (6 : ℤ) ≤ k := by omega
              have hle : (3/2 : ℚ) ^ (6 : ℤ) ≤ (3/2 : ℚ) ^ k :=
                zpow_three_halves_le_of_le hk6
              rw [hlr] at hlr10
              have h6 : ((3 : ℚ)/2) ^ (6 : ℤ) = 729/64 := by norm_num
              rw [h6] at hle
              linarith
            · rw [hlr, ← zpow_add_one₀ (by norm_num)]
          · exact ⟨k, hk1, hk2, hlr⟩
        · exact ⟨k, hk1, hk2, hlr⟩
      · exact ⟨hb1, hb2, k, hk1, hk2, hlr⟩
  · exact ⟨hb1, hb2, k, hk1, hk2, hlr⟩

theorem trustInv_runUpdates (kl_targ : ℚ) (calls : List TrustCall) :
    TrustInv (runUpdates kl_targ calls) := by
  suffices h : ∀ s : TrustState, TrustInv s →
      TrustInv (calls.foldl
        (fun s c => adaptTrust kl_targ c.2.1 c.2.2 c.1 s) s) from
    h initTrust trustInv_init
  induction calls with
  | nil => exact fun s hs => hs
  | cons c rest ih =>
      exact fun s hs =>
        ih _ (trustInv_step kl_targ c.1 c.2.1 c.2.2 s hs)

theorem lr_bounds_of_trustInv {s : TrustState} (hs : TrustInv s) :
    (2/3 : ℚ) ^ 6 ≤ s.lr_multiplier ∧ s.lr_multiplier ≤ (3/2 : ℚ) ^ 6 := by
  obtain ⟨-, -, k, hk1, hk2, hlr⟩ := hs
  constructor
  · have h := zpow_three_halves_le_of_le hk1
    have h6 : ((3 : ℚ)/2) ^ (-6 : ℤ) = (2/3 : ℚ) ^ 6 := by
      rw [zpow_neg]; norm_num
    rw [h6] at h
    rw [hlr]; exact h
  · have h := zpow_three_halves_le_of_le hk2
    have h6 : ((3 : ℚ)/2) ^ (6 : ℤ) = (3/2 : ℚ) ^ 6 := by norm_num
    rw [h6] at h
    rw [hlr]; exact h

/-- C1 counterexample: starting from the constructed state, fourteen
`update` calls with `ada_kl_penalty = True`, `use_lr_adjust = True` and
observed KL `0` (with `kl_targ = 1`) drive `lr_multiplier` to
`(3/2)^6 = 729/64 > 10`, violating the claimed bound
`lr_multiplier ≤ 10`. -/
theorem trust_bounds_claim_counterexample :
    ¬ ((runUpdates 1 (List.replicate 14 ((0 : ℚ), true, true))).lr_multiplier
        ≤ 10) := by
  set_option maxHeartbeats 2000000 in
    norm_num [runUpdates, adaptTrust, initTrust, List.replicate]

/-- C1 (amended): for every sequence of `update` calls made with
`ada_kl_penalty = True` and any observed KL values, the trust-region state
satisfies `beta ∈ [1/35, 35]` and `lr_multiplier ∈ [(2/3)^6, (3/2)^6]`
(the guards `> 0.1` and `< 10` are checked before dividing or multiplying
by `1.5`, so the multiplier can overshoot `[0.1, 10]` by one factor of
`1.5` at each end). -/
theorem trust_state_bounds (kl_targ : ℚ) (calls : List TrustCall)
    (_hada : ∀ c ∈ calls, c.2.2 = true) :
    1/35 ≤ (runUpdates kl_targ calls).beta ∧
    (runUpdates kl_targ calls).beta ≤ 35 ∧
    (2/3 : ℚ) ^ 6 ≤ (runUpdates kl_targ calls).lr_multiplier ∧
    (runUpdates kl_targ calls).lr_multiplier ≤ (3/2 : ℚ) ^ 6 := by
  have h := trustInv_runUpdates kl_targ calls
  have h2 := lr_bounds_of_trustInv h
  exact ⟨h.1, h.2.1, h2.1, h2.2⟩

/-- Witness instantiating `trust_state_bounds` on a concrete call list. -/
theorem trust_state_bounds_witness :
    1/35 ≤ (runUpdates 1 [((3 : ℚ), true, true)]).beta ∧
    (runUpdates 1 [((3 : ℚ), true, true)]).beta ≤ 35 ∧
    (2/3 : ℚ) ^ 6 ≤ (runUpdates 1 [((3 : ℚ), true, true)]).lr_multiplier ∧
    (runUpdates 1 [((3 : ℚ), true, true)]).lr_multiplier ≤ (3/2 : ℚ) ^ 6 :=
  trust_state_bounds 1 [((3 : ℚ), true, true)] (by simp)

/-- C3: with `ada_kl_penalty = True` and positive `kl_targ`, a single
adaptation sets `beta` to `min 35 (1.5 * beta)` when the final KL exceeds
`2 * kl_targ`, to `max (1/35) (beta / 1.5)` when it is below `kl_targ / 2`,
and leaves `beta` unchanged when it lies within
`[kl_targ / 2, 2 * kl_targ]`. -/
theorem beta_adaptation (kl_targ kl : ℚ) (u : Bool) (s : TrustState)
    (ht : 0 < kl_targ) :
    (kl > 2 * kl_targ →
      (adaptTrust kl_targ u true kl s).beta = min 35 (3/2 * s.beta)) ∧
    (kl < kl_targ / 2 →
      (adaptTrust kl_targ u true kl s).beta = max (1/35) (s.beta / (3/2))) ∧
    (kl_targ / 2 ≤ kl ∧ kl ≤ 2 * kl_targ →
      (adaptTrust kl_targ u true kl s).beta = s.beta) := by
  refine ⟨?_, ?_, ?_⟩
  · intro h
    unfold adaptTrust
    rw [if_pos rfl, if_pos (by linarith : kl > kl_targ * 2)]
  · intro h
    unfold adaptTrust
    rw [if_pos rfl, if_neg (by push_neg; linarith : ¬ kl > kl_targ * 2),
      if_pos h]
  · rintro ⟨h1, h2⟩
    unfold adaptTrust
    rw [if_pos rfl, if_neg (by push_neg; linarith : ¬ kl > kl_targ * 2),
      if_neg (by push_neg; linarith : ¬ kl < kl_targ / 2)]

/-- Witness instantiating `beta_adaptation` at `kl_targ = 1`, `kl = 3`. -/
theorem beta_adaptation_witness :
    ((3 : ℚ) > 2 * 1 →
      (adaptTrust 1 true true 3 initTrust).beta =
        min 35 (3/2 * initTrust.beta)) ∧
    ((3 : ℚ) < 1 / 2 →
      (adaptTrust 1 true true 3 initTrust).beta =
        max (1/35) (initTrust.beta / (3/2))) ∧
    ((1 : ℚ) / 2 ≤ 3 ∧ (3 : ℚ) ≤ 2 * 1 →
      (adaptTrust 1 true true 3 initTrust).beta = initTrust.beta) :=
  beta_adaptation 1 3 true initTrust (by norm_num)

/-- C10: after any sequence of `update` calls, `lr_multiplier` is an
integer power of `3/2` with exponent in `[-6, 6]` (so it lies in
`[1.5 ^ (-6), 1.5 ^ 6]`); a single call leaves it unchanged or changes it
by exactly one factor of `3/2`, division occurring only when the multiplier
exceeds `1/10` and multiplication only when it is below `10`. -/
theorem lr_multiplier_powers (kl_targ : ℚ) (calls : List TrustCall) :
    (∃ k : ℤ, -6 ≤ k ∧ k ≤ 6 ∧
        (runUpdates kl_targ calls).lr_multiplier = (3/2 : ℚ) ^ k) ∧
    ∀ (kl : ℚ) (u a : Bool) (s : TrustState),
      (adaptTrust kl_targ u a kl s).lr_multiplier = s.lr_multiplier ∨
      ((adaptTrust kl_targ u a kl s).lr_multiplier =
          s.lr_multiplier / (3/2) ∧ s.lr_multiplier > 1/10) ∨
      ((adaptTrust kl_targ u a kl s).lr_multiplier =
          s.lr_multiplier * (3/2) ∧ s.lr_multiplier < 10) := by
  constructor
  · exact (trustInv_runUpdates kl_targ calls).2.2
  · intro kl u a s
    unfold adaptTrust
    split
    · split
      · dsimp only
        split
        · split
          · rename_i hg; exact Or.inr (Or.inl ⟨rfl, hg.2⟩)
          · exact Or.inl rfl
        · exact Or.inl rfl
      · split
        · dsimp only
          split
          · split
            · rename_i hg; exact Or.inr (Or.inr ⟨rfl, hg.2⟩)
            · exact Or.inl rfl
          · exact Or.inl rfl
        · exact Or.inl rfl
    · exact Or.inl rfl

theorem runEpochs_spec {T : Type} (kl_targ : ℚ) (step : T → T)
    (ev : T → ℚ × ℚ × ℚ) :
    ∀ (n : ℕ) (s : T) (acc : ℚ × ℚ × ℚ),
      (runEpochs kl_targ step ev n s acc).2.2 ≤ n ∧
      (runEpochs kl_targ step ev n s acc).1 =
        step^[(runEpochs kl_targ step ev n s acc).2.2] s ∧
      ((runEpochs kl_targ step ev n s acc).2.2 = 0 →
        runEpochs kl_targ step ev n s acc = (s, acc, 0)) ∧
      (0 < (runEpochs kl_targ step ev n s acc).2.2 →
        (runEpochs kl_targ step ev n s acc).2.1 =
          ev (step^[(runEpochs kl_targ step ev n s acc).2.2] s)) ∧
      (∀ j, 0 < j → j < (runEpochs kl_targ step ev n s acc).2.2 →
        (ev (step^[j] s)).2.1 ≤ kl_targ * 4) ∧
      ((runEpochs kl_targ step ev n s acc).2.2 < n →
        (runEpochs kl_targ step ev n s acc).2.1.2.1 > kl_targ * 4) := by
  intro n
  induction n with
  | zero =>
      intro s acc
      refine ⟨le_refl _, rfl, fun _ => rfl, ?_, ?_, ?_⟩
      · intro h; exact absurd h (by simp [runEpochs])
      · intro j hj hj'; exact absurd (hj.trans hj') (by simp [runEpochs])
      · intro h; exact absurd h (by simp [runEpochs])
  | succ n ih =>
      intro s acc
      rw [runEpochs]
      by_cases hkl : (ev (step s)).2.1 > kl_targ * 4
      · rw [if_pos hkl]
        refine ⟨by simp, by simp, by simp, fun _ => by simp, ?_,
          fun _ => by simpa using hkl⟩
        intro j hj hj'
        simp at hj'
        omega
      · rw [if_neg hkl]
        obtain ⟨ih1, ih2, ih3, ih4, ih5, ih6⟩ := ih (step s) (ev (step s))
        push_neg at hkl
        refine ⟨?_, ?_, ?_, ?_, ?_, ?_⟩
        · show (runEpochs kl_targ step ev n (step s) (ev (step s))).2.2 + 1
            ≤ n + 1
          omega
        · show (runEpochs kl_targ step ev n (step s) (ev (step s))).1 =
            step^[(runEpochs kl_targ step ev n (step s)
              (ev (step s))).2.2 + 1] s
          rw [Function.iterate_succ_apply]
          exact ih2
        · intro h
          exact absurd h (Nat.succ_ne_zero _)
        · intro _
          show (runEpochs kl_targ step ev n (step s) (ev (step s))).2.1 =
            ev (step^[(runEpochs kl_targ step ev n (step s)
              (ev (step s))).2.2 + 1] s)
          rcases Nat.eq_zero_or_pos
              (runEpochs kl_targ step ev n (step s) (ev (step s))).2.2 with
            h0 | hpos
          · rw [ih3 h0]
            simp
          · rw [ih4 hpos, Function.iterate_succ_apply]
        · show ∀ j, 0 < j →
            j < (runEpochs kl_targ step ev n (step s)
              (ev (step s))).2.2 + 1 →
            (ev (step^[j] s)).2.1 ≤ kl_targ * 4
          intro j hj hj'
          rcases Nat.lt_or_ge j 2 with h1 | h1
          · have hj1 : j = 1 := by omega
            rw [hj1, Function.iterate_one]
            exact hkl
          · have hj2 : 0 < j - 1 := by omega
            have hj3 : j - 1 <
                (runEpochs kl_targ step ev n (step s) (ev (step s))).2.2 := by
              omega
            have h := ih5 (j - 1) hj2 hj3
            rw [← Function.iterate_succ_apply] at h
            rwa [show (j - 1).succ = j by omega] at h
        · show (runEpochs kl_targ step ev n (step s) (ev (step s))).2.2 + 1
              < n + 1 →
            (runEpochs kl_targ step ev n (step s) (ev (step s))).2.1.2.1 >
              kl_targ * 4
          intro h
          exact ih6 (by omega)

/-- C4 counterexample: with `epochs = 1` and the KL evaluating to `5`
(`kl_targ = 1`), the loop runs its single step, observes
`KL = 5 > 4 * kl_targ` and breaks — the final KL exceeds `4 * kl_targ` yet
the loop consumed its full one-step budget, refuting "strictly fewer than
`epochs` steps". -/
theorem early_stop_claim_counterexample :
    ¬ ((runEpochs (T := Unit) 1 id (fun _ => (0, 5, 0)) 1 () (0, 0, 0)).2.1.2.1
          > 1 * 4 →
        (runEpochs (T := Unit) 1 id (fun _ => (0, 5, 0)) 1 () (0, 0, 0)).2.2
          < 1) := by
  rw [runEpochs]
  norm_num

/-- C4 (amended): the epoch loop executes at most `epochs` steps; whenever
it underruns that budget the final observed KL exceeds `4 * kl_targ`; and
every executed step except the last observed `KL ≤ 4 * kl_targ` (the guard
is a hard early exit at the first exceedance).  The original claim fails
only when the first exceedance lands exactly on the `epochs`-th step, which
consumes the full budget. -/
theorem early_stop_guard {T : Type} (kl_targ : ℚ) (step : T → T)
    (ev : T → ℚ × ℚ × ℚ) (epochs : ℕ) (s : T) :
    (runEpochs kl_targ step ev epochs s (0, 0, 0)).2.2 ≤ epochs ∧
    ((runEpochs kl_targ step ev epochs s (0, 0, 0)).2.2 < epochs →
      (runEpochs kl_targ step ev epochs s (0, 0, 0)).2.1.2.1 >
        kl_targ * 4) ∧
    (∀ j, 0 < j → j < (runEpochs kl_targ step ev epochs s (0, 0, 0)).2.2 →
      (ev (step^[j] s)).2.1 ≤ kl_targ * 4) := by
  obtain ⟨h1, -, -, -, h5, h6⟩ :=
    runEpochs_spec kl_targ step ev epochs s (0, 0, 0)
  exact ⟨h1, h6, h5⟩

/-- Witness instantiating `early_stop_guard`: three-epoch budget, guard
fires on the first step. -/
theorem early_stop_guard_witness :
    (runEpochs (T := Unit) 1 id (fun _ => (0, 5, 0)) 3 () (0, 0, 0)).2.1.2.1
      > 1 * 4 :=
  (early_stop_guard (T := Unit) 1 id (fun _ => (0, 5, 0)) 3 ()).2.1 (by
    rw [runEpochs]
    norm_num)

theorem update_phiState_of_c_ph_zero {T P : Type} (kl_targ : ℚ)
    (epochs phi_epochs : ℕ) (c : UpdateCall T P) (t : T) (p : P)
    (s : TrustState) :
    (update kl_targ epochs phi_epochs 0 c t p s).phiState = p := by
  show (if (0 : ℚ) = 1 then (c.phiStep t)^[phi_epochs] p else p) = p
  rw [if_neg (by norm_num)]

/-- C8: with `c_ph = 0`, the parameters of the phi network are never
mutated across any sequence of `update` calls — the control-variate
sub-loop is skipped entirely and no phi optimization step runs. -/
theorem phi_frame {T P : Type} (kl_targ : ℚ) (epochs phi_epochs : ℕ)
    (c_ph : ℚ) (hc : c_ph = 0) (calls : List (UpdateCall T P)) (t : T)
    (p : P) (s : TrustState) :
    (runPolicyUpdates kl_targ epochs phi_epochs c_ph calls t p s).2.1 = p := by
  subst hc
  induction calls generalizing t s with
  | nil => rfl
  | cons c rest ih =>
      rw [runPolicyUpdates, update_phiState_of_c_ph_zero]
      exact ih _ _

/-- Witness instantiating `phi_frame` on two probe calls whose phi step
would add one if it ever ran. -/
theorem phi_frame_witness :
    (runPolicyUpdates 1 5 5 0 [probeCall, probeCall] () (7 : ℚ)
      initTrust).2.1 = 7 :=
  phi_frame 1 5 5 0 rfl [probeCall, probeCall] () 7 initTrust

/-- C6 counterexample: `Policy.update` has no `return` statement, so a call
returns `None` rather than the claimed `(loss, kl, entropy)` triple; on a
concrete call the returned value is `none`.  Moreover the emitted metric
key for the learning-rate multiplier is `_lr_multiplier`, not the claimed
`lr_multiplier`. -/
theorem update_return_counterexample :
    (update 1 5 5 0 probeCall () (7 : ℚ) initTrust).ret = none ∧
    ((update 1 5 5 0 probeCall () (7 : ℚ) initTrust).metrics.map
      Prod.fst) = ["PolicyLoss", "PolicyEntropy", "KL", "Beta",
        "_lr_multiplier"] := by
  refine ⟨rfl, ?_⟩
  norm_num [update]

/-- C6 (amended): `update` returns no value (Python `None`); the final
epoch triple `(loss, kl, entropy)` appears only in the emitted metrics,
which are exactly `Phi_loss` (when `c_ph = 1`, evaluated at the
post-sub-loop phi state) followed by `PolicyLoss`, `PolicyEntropy`, `KL`
(the final-epoch values), `Beta` and `_lr_multiplier` (the post-adaptation
trust-region state). -/
theorem update_metrics {T P : Type} (kl_targ : ℚ) (epochs phi_epochs : ℕ)
    (c_ph : ℚ) (c : UpdateCall T P) (t : T) (p : P) (s : TrustState) :
    (update kl_targ epochs phi_epochs c_ph c t p s).ret = none ∧
    (update kl_targ epochs phi_epochs c_ph c t p s).phiState =
      (if c_ph = 1 then (c.phiStep t)^[phi_epochs] p else p) ∧
    (update kl_targ epochs phi_epochs c_ph c t p s).policyState =
      (runEpochs kl_targ
        (c.policyStep (update kl_targ epochs phi_epochs c_ph c t p s).phiState)
        (c.evalTriple (update kl_targ epochs phi_epochs c_ph c t p s).phiState)
        epochs t (0, 0, 0)).1 ∧
    (update kl_targ epochs phi_epochs c_ph c t p s).trust =
      adaptTrust kl_targ c.use_lr_adjust c.ada_kl_penalty
        (runEpochs kl_targ
          (c.policyStep
            (update kl_targ epochs phi_epochs c_ph c t p s).phiState)
          (c.evalTriple
            (update kl_targ epochs phi_epochs c_ph c t p s).phiState)
          epochs t (0, 0, 0)).2.1.2.1 s ∧
    (update kl_targ epochs phi_epochs c_ph c t p s).metrics =
      (if c_ph = 1 then
        [("Phi_loss", c.evalPhiLoss t
          (update kl_targ epochs phi_epochs c_ph c t p s).phiState)]
       else []) ++
      [("PolicyLoss",
         (runEpochs kl_targ
           (c.policyStep
             (update kl_targ epochs phi_epochs c_ph c t p s).phiState)
           (c.evalTriple
             (update kl_targ epochs phi_epochs c_ph c t p s).phiState)
           epochs t (0, 0, 0)).2.1.1),
       ("PolicyEntropy",
         (runEpochs kl_targ
           (c.policyStep
             (update kl_targ epochs phi_epochs c_ph c t p s).phiState)
           (c.evalTriple
             (update kl_targ epochs phi_epochs c_ph c t p s).phiState)
           epochs t (0, 0, 0)).2.1.2.2),
       ("KL",
         (runEpochs kl_targ
           (c.policyStep
             (update kl_targ epochs phi_epochs c_ph c t p s).phiState)
           (c.evalTriple
             (update kl_targ epochs phi_epochs c_ph c t p s).phiState)
           epochs t (0, 0, 0)).2.1.2.1),
       ("Beta", (update kl_targ epochs phi_epochs c_ph c t p s).trust.beta),
       ("_lr_multiplier",
         (update kl_targ epochs phi_epochs c_ph c t p s).trust.lr_multiplier)]
    := ⟨rfl, rfl, rfl, rfl, rfl⟩

theorem sum_zipWith_replicate_zero (n : ℕ) (lv : List ℝ) :
    (List.zipWith (fun d l => d ^ 2 / Real.exp l)
      (List.replicate n (0 : ℝ)) lv).sum = 0 := by
  induction lv generalizing n with
  | nil => simp
  | cons a as ih =>
      cases n with
      | zero => simp
      | succ k => simp [List.replicate_succ, ih]

/-- C9: the KL divergence of a diagonal Gaussian with itself is exactly
zero, for every batch of means and every log-variance vector of length
`act_dim`. -/
theorem kl_self (act_dim : ℕ) (log_vars : List ℝ) (means : List (List ℝ))
    (h : log_vars.length = act_dim) :
    klDivergence act_dim means log_vars means log_vars = 0 := by
  simp only [klDivergence]
  have htr : (List.zipWith (fun o n => Real.exp (o - n)) log_vars
      log_vars).sum = (act_dim : ℝ) := by
    rw [List.zipWith_same]
    simp [h]
  have hrow : ∀ mrow : List ℝ,
      (List.zipWith (fun d lv => d ^ 2 / Real.exp lv)
        (List.zipWith (fun a b => a - b) mrow mrow) log_vars).sum = 0 := by
    intro mrow
    have h0 : List.zipWith (fun a b => a - b) mrow mrow
        = List.replicate mrow.length (0 : ℝ) := by
      rw [List.zipWith_same]
      induction mrow with
      | nil => simp
      | cons a as ih => simp [List.replicate_succ, ih]
    rw [h0]
    exact sum_zipWith_replicate_zero _ _
  have hbatch : List.zipWith (fun mrow omrow =>
      log_vars.sum - log_vars.sum +
        (List.zipWith (fun o n => Real.exp (o - n)) log_vars log_vars).sum +
        (List.zipWith (fun d lv => d ^ 2 / Real.exp lv)
          (List.zipWith (fun a b => a - b) mrow omrow) log_vars).sum -
        (act_dim : ℝ)) means means = List.replicate means.length 0 := by
    rw [List.zipWith_same]
    induction means with
    | nil => simp
    | cons m ms ih =>
        simp [List.replicate_succ, ih, htr, hrow,
          sum_zipWith_replicate_zero, h]
  rw [hbatch]
  simp [listMean]

/-- Witness instantiating `kl_self` at `act_dim = 1`, one batch row. -/
theorem kl_self_witness :
    klDivergence 1 [[0]] [0] [[0]] [0] = 0 :=
  kl_self 1 [0] [[0]] rfl

/-- C2 counterexample: with the detached inner tensor `[[1]]`, log-variance
output `[0]` and zero mean channel, the source loss contracts with
`exp(log_var)`, giving `loss1 = -exp 0 = -1`, while the claimed formula
contracts with `log_var` itself, giving `0`. -/
theorem loss1_claim_counterexample :
    loss1 [[1]] [0] [[0]] [[0]] ≠ loss1_claimed [[1]] [0] [[0]] [[0]] := by
  simp [loss1, loss1_claimed, loss1_log_vars, loss1_mean, matMean]

/-- C2 (amended): the surrogate part of the loss is
`loss1 = -mean(inner_log_var * exp(log_var)) - mean(inner_mean * mean)` —
the log-variance channel is contracted with the exponential of the
log-variance output, not the log-variance itself — and the total loss is
`loss1 + beta * KL + eta * (max 0 (KL - 2 * kl_targ))²`. -/
theorem surrogate_loss_structure (log_vars_inner : List (List ℝ))
    (log_vars : List ℝ) (means_inner means : List (List ℝ))
    (beta eta kl_targ kl : ℝ) :
    loss1 log_vars_inner log_vars means_inner means =
      loss1_amended log_vars_inner log_vars means_inner means ∧
    policyLoss log_vars_inner log_vars means_inner means beta eta kl_targ kl
      = loss1 log_vars_inner log_vars means_inner means + beta * kl +
        eta * (max 0 (kl - 2 * kl_targ)) ^ 2 := by
  constructor
  · simp only [loss1, loss1_amended, loss1_log_vars, loss1_mean]
    ring
  · rfl

/-- C5 counterexample: the small regime with `obs_dim = act_dim = 1` builds
successfully with `hid3_size = 1`, yet `logvar_speed = 10 * 1 / 48 = 0` —
no minimum of `1` is applied. -/
theorem logvar_speed_claim_counterexample :
    policySizes "small" 1 1 1 = Except.ok (1, 1, 1) ∧
    logvarSpeed 1 = 0 ∧ ¬ (1 ≤ logvarSpeed 1) := by
  refine ⟨?_, rfl, by decide⟩
  simp [policySizes]

/-- C5 (amended): the number of trainable log-variance rows is exactly
`(10 * hid3_size) / 48` with no minimum applied — it is `0` in the small
regime whenever `act_dim ≤ 4`, and at least `2` in the large regime — and
the log-variance output is the row sum plus the fixed `policy_logvar`
offset, independent of the observation. -/
theorem logvar_head_structure (obs_dim act_dim hid1_mult : ℕ)
    (hact : 0 < act_dim) (p : PolicyNNParams) (plv : ℝ) (obs obs' : List ℝ) :
    (∀ h1 h2 h3, policySizes "small" obs_dim act_dim hid1_mult
        = Except.ok (h1, h2, h3) → logvarSpeed h3 = 10 * act_dim / 48) ∧
    (∀ h1 h2 h3, policySizes "large" obs_dim act_dim hid1_mult
        = Except.ok (h1, h2, h3) →
        logvarSpeed h3 = 10 * (act_dim * 10) / 48 ∧ 2 ≤ logvarSpeed h3) ∧
    (act_dim ≤ 4 → logvarSpeed act_dim = 0) ∧
    (policyForward p plv act_dim obs).2 = (policyForward p plv act_dim obs').2 ∧
    (policyForward p plv act_dim obs).2 = (List.range act_dim).map (fun j =>
      (p.logvarRows.map (fun r => r.getD j 0)).sum + plv) := by
  refine ⟨?_, ?_, ?_, rfl, rfl⟩
  · intro h1 h2 h3 h
    simp [policySizes] at h
    rw [← h.2.2]
    rfl
  · intro h1 h2 h3 h
    simp [policySizes] at h
    rw [← h.2.2]
    refine ⟨rfl, ?_⟩
    show 2 ≤ 10 * (act_dim * 10) / 48
    omega
  · intro h4
    show 10 * act_dim / 48 = 0
    omega

/-- Witness instantiating `logvar_head_structure` at `obs_dim = 3`,
`act_dim = 2`. -/
theorem logvar_head_structure_witness :
    (∀ h1 h2 h3, policySizes "small" 3 2 1
        = Except.ok (h1, h2, h3) → logvarSpeed h3 = 10 * 2 / 48) ∧
    (∀ h1 h2 h3, policySizes "large" 3 2 1
        = Except.ok (h1, h2, h3) →
        logvarSpeed h3 = 10 * (2 * 10) / 48 ∧ 2 ≤ logvarSpeed h3) ∧
    ((2 : ℕ) ≤ 4 → logvarSpeed 2 = 0) ∧
    (policyForward probeParams 3 2 [1]).2 =
      (policyForward probeParams 3 2 [2]).2 ∧
    (policyForward probeParams 3 2 [1]).2 = (List.range 2).map (fun j =>
      (probeParams.logvarRows.map (fun r => r.getD j 0)).sum + 3) :=
  logvar_head_structure 3 2 1 (by norm_num) probeParams 3 [1] [2]

/-- C7 counterexample: with `c_ph = 0`, construction succeeds even though
`phi_obj = "Bogus"` is unrecognized — the `phi_obj` check lives only inside
the `c_ph == 1` branch, so the error is not raised regardless of `c_ph`
as claimed. -/
theorem config_error_claim_counterexample :
    buildGraph "small" "Bogus" 1 1 1 0 = Except.ok (1, 1, 1) := by
  simp [buildGraph, policySizes]

/-- C7 (amended): an unrecognized `policy_size` raises
`NotImplementedError` at construction regardless of the other parameters;
an unrecognized `phi_obj` raises at construction only when `c_ph = 1`;
when `c_ph ≠ 1` construction succeeds for any `phi_obj` once `policy_size`
is valid. -/
theorem config_errors (policy_size phi_obj : String)
    (obs_dim act_dim hid1_mult : ℕ) (c_ph : ℚ) :
    (policy_size ≠ "small" → policy_size ≠ "large" →
      buildGraph policy_size phi_obj obs_dim act_dim hid1_mult c_ph =
        Except.error "NotImplementedError") ∧
    (c_ph = 1 → phi_obj ≠ "FitQ" → phi_obj ≠ "MinVar" →
      (policy_size = "small" ∨ policy_size = "large") →
      buildGraph policy_size phi_obj obs_dim act_dim hid1_mult c_ph =
        Except.error "NotImplementedError") ∧
    (c_ph ≠ 1 → (policy_size = "small" ∨ policy_size = "large") →
      ∃ sizes, buildGraph policy_size phi_obj obs_dim act_dim hid1_mult c_ph
        = Except.ok sizes) := by
  refine ⟨?_, ?_, ?_⟩
  · intro h1 h2
    simp [buildGraph, policySizes, h1, h2]
  · rintro hc h1 h2 (h | h) <;> subst h <;> subst hc <;>
      simp [buildGraph, policySizes, h1, h2]
  · rintro hc (h | h) <;> subst h
    · exact ⟨(obs_dim, Nat.sqrt (obs_dim * act_dim), act_dim),
        by simp [buildGraph, policySizes, hc]⟩
    · exact ⟨(obs_dim * hid1_mult,
        Nat.sqrt (obs_dim * hid1_mult * (act_dim * 10)), act_dim * 10),
        by simp [buildGraph, policySizes, hc]⟩

/-- Witness instantiating `config_errors`: bad `phi_obj` with `c_ph = 1`
does fail at construction. -/
theorem config_errors_witness :
    buildGraph "small" "Bogus" 1 1 1 1 = Except.error "NotImplementedError" :=
  (config_errors "small" "Bogus" 1 1 1 1).2.1 rfl (by decide) (by decide)
    (Or.inl rfl)

end PPOStein
